import Mathlib

/-!
Verification of the `Demo` class of the three.js precomputed atmospheric
scattering port (`main.js`).  The asset pipeline (`loadTextures`, `init`)
is embedded over `Nat` byte lists; the interaction state machine
(`onMouseDown` / `onMouseMove` / `onMouseUp` / `onMouseWheel` /
`onKeyPress` / `setView`) is embedded over the reals, with JS number
literals read as exact rationals.
-/

/-! ### Constants (main.js, top of file) -/

def TRANSMITTANCE_TEXTURE_WIDTH : Nat := 256
def TRANSMITTANCE_TEXTURE_HEIGHT : Nat := 64
def SCATTERING_TEXTURE_WIDTH : Nat := 256
def SCATTERING_TEXTURE_HEIGHT : Nat := 128
def SCATTERING_TEXTURE_DEPTH : Nat := 32
def IRRADIANCE_TEXTURE_WIDTH : Nat := 64
def IRRADIANCE_TEXTURE_HEIGHT : Nat := 16

/-! ### Asset decoding (`new Float32Array(buffer)` in `loadTextures`) -/

/-- Errors that can abort the asset pipeline: a `RangeError` thrown by the
`Float32Array` constructor, or a rejected `fetch`. -/
inductive LoadError where
  | rangeError : LoadError
  | networkError : String → LoadError
deriving DecidableEq

/-- Assemble consecutive groups of four bytes into little-endian 32-bit
words (the bit patterns of the IEEE-754 floats of a `Float32Array` view);
bytes are values in `0..255`.  A trailing group of fewer than four bytes
yields no word. -/
def leWords32 : List Nat → List Nat
  | b0 :: b1 :: b2 :: b3 :: rest =>
      (b0 + 256 * b1 + 65536 * b2 + 16777216 * b3) :: leWords32 rest
  | _ => []

/-- `new Float32Array(buffer)` on an `ArrayBuffer`: throws a `RangeError`
when the byte length is not a multiple of 4, and otherwise views the
buffer as `byteLength / 4` little-endian 32-bit floats (here: their bit
patterns).  No dimension or element-count check is performed. -/
def float32ArrayOfBuffer (buffer : List Nat) : Except LoadError (List Nat) :=
  if buffer.length % 4 = 0 then
    Except.ok (leWords32 buffer)
  else
    Except.error LoadError.rangeError

/-- `Except.isOk` as a plain Bool-valued function. -/
def exceptIsOk {ε α : Type} : Except ε α → Bool
  | Except.ok _ => true
  | Except.error _ => false

/-! ### `Demo.loadTextures` fetch phase (main.js lines 93-100) -/

/-- The three asset files mapped over in `loadTextures`; each is the
argument of exactly one `fetch` call. -/
def textureFiles : List String :=
  ["/transmittance.dat", "/scattering.dat", "/irradiance.dat"]

/-- The fetch-and-decode phase of `Demo.loadTextures`: each of the three
files is fetched once and its `ArrayBuffer` is decoded with
`new Float32Array(buffer)`; `Promise.all` propagates the first failure.
`fetchFile` is the environment's response (raw bytes, or a rejection). -/
def loadTextures (fetchFile : String → Except LoadError (List Nat)) :
    Except LoadError (List Nat × List Nat × List Nat) := do
  let transmittanceData ← fetchFile "/transmittance.dat" >>= float32ArrayOfBuffer
  let scatteringData ← fetchFile "/scattering.dat" >>= float32ArrayOfBuffer
  let irradianceData ← fetchFile "/irradiance.dat" >>= float32ArrayOfBuffer
  return (transmittanceData, scatteringData, irradianceData)

/-! ### `Demo.init` (main.js lines 31-43) -/

/-- Outcome of `Demo.init`: whether `setupScene` ran, which fetches were
issued (the single `map` in `loadTextures` issues one per file), and the
value of the awaited `loadTextures` promise. -/
structure InitResult where
  sceneConstructed : Bool
  requests : List String
  loaded : Except LoadError (List Nat × List Nat × List Nat)

/-- `Demo.init`: awaits `loadTextures` and only then calls `setupScene`;
when the awaited promise rejects, the async function aborts and no scene
is constructed.  No retry logic exists anywhere in `init`. -/
def init (fetchFile : String → Except LoadError (List Nat)) : InitResult :=
  match loadTextures fetchFile with
  | Except.error e =>
      { sceneConstructed := false, requests := textureFiles,
        loaded := Except.error e }
  | Except.ok bufs =>
      { sceneConstructed := true, requests := textureFiles,
        loaded := Except.ok bufs }

/-! ### Texture binding phase of `Demo.loadTextures` (main.js lines 102-136) -/

inductive TextureFilter where
  | LinearFilter : TextureFilter
  | NearestFilter : TextureFilter
deriving DecidableEq

inductive TextureType where
  | FloatType : TextureType
  | UnsignedByteType : TextureType
deriving DecidableEq

/-- A `THREE.DataTexture` restricted to the fields the demo sets
(`type` is spelled `typ`, a reserved-looking name in Lean). -/
structure DataTexture where
  data : List Nat
  width : Nat
  height : Nat
  magFilter : TextureFilter
  minFilter : TextureFilter
  internalFormat : String
  typ : TextureType
  needsUpdate : Bool
deriving DecidableEq

/-- A `THREE.Data3DTexture` restricted to the fields the demo sets. -/
structure Data3DTexture where
  data : List Nat
  width : Nat
  height : Nat
  depth : Nat
  magFilter : TextureFilter
  minFilter : TextureFilter
  internalFormat : String
  typ : TextureType
  needsUpdate : Bool
deriving DecidableEq

structure DemoTextures where
  transmittanceTexture : DataTexture
  scatteringTexture : Data3DTexture
  irradianceTexture : DataTexture
deriving DecidableEq

/-- The texture-construction phase of `Demo.loadTextures`:
`hasOESTextureFloatLinear` is the result of the single
`renderer.extensions.has` capability probe; only the transmittance
texture's `internalFormat` consults it, the scattering and irradiance
textures are assigned the literal string directly. -/
def bindTextures (hasOESTextureFloatLinear : Bool)
    (transmittanceData scatteringData irradianceData : List Nat) :
    DemoTextures :=
  { transmittanceTexture :=
      { data := transmittanceData
        width := TRANSMITTANCE_TEXTURE_WIDTH
        height := TRANSMITTANCE_TEXTURE_HEIGHT
        magFilter := TextureFilter.LinearFilter
        minFilter := TextureFilter.LinearFilter
        internalFormat := if hasOESTextureFloatLinear then "RGBA32F" else "RGBA16F"
        typ := TextureType.FloatType
        needsUpdate := true }
    scatteringTexture :=
      { data := scatteringData
        width := SCATTERING_TEXTURE_WIDTH
        height := SCATTERING_TEXTURE_HEIGHT
        depth := SCATTERING_TEXTURE_DEPTH
        magFilter := TextureFilter.LinearFilter
        minFilter := TextureFilter.LinearFilter
        internalFormat := "RGBA16F"
        typ := TextureType.FloatType
        needsUpdate := true }
    irradianceTexture :=
      { data := irradianceData
        width := IRRADIANCE_TEXTURE_WIDTH
        height := IRRADIANCE_TEXTURE_HEIGHT
        magFilter := TextureFilter.LinearFilter
        minFilter := TextureFilter.LinearFilter
        internalFormat := "RGBA16F"
        typ := TextureType.FloatType
        needsUpdate := true } }

/-- A fetch environment in which the scattering asset's request fails. -/
def failingFetch : String → Except LoadError (List Nat) := fun file =>
  if file = "/scattering.dat" then
    Except.error (LoadError.networkError "HTTP 404")
  else
    Except.ok []

/-! ### Interaction state (constructor, `setupCamera`, `setupControls`) -/

/-- `kSunAngularRadius = 0.00935 / 2`. -/
noncomputable def kSunAngularRadius : ℝ := 0.00935 / 2

/-- `kLengthUnitInMeters = 1000`. -/
noncomputable def kLengthUnitInMeters : ℝ := 1000

/-- A 3-component vector (`THREE.Vector3`, `camera.position`, ...). -/
structure Vec3 where
  x : ℝ
  y : ℝ
  z : ℝ

/-- The origin `(0, 0, 0)`, the constant argument of every
`camera.lookAt(0, 0, 0)` call in the demo. -/
noncomputable def Vec3.zero : Vec3 := ⟨0, 0, 0⟩

/-- Squared Euclidean norm of a `Vec3`. -/
noncomputable def Vec3.normSq (v : Vec3) : ℝ := v.x ^ 2 + v.y ^ 2 + v.z ^ 2

/-- The value of `this.drag` when a drag is active: the string `'sun'` or
the string `'camera'`; the idle state is `this.drag = undefined`,
modelled as `none : Option DragTarget`. -/
inductive DragTarget where
  | sun : DragTarget
  | camera : DragTarget
deriving DecidableEq

/-- The mutable interaction state of the `Demo` instance: the drag
target, the recorded previous pointer position, the spherical view and
sun coordinates, and the derived render state (camera position and look
target, `sun_direction` uniform, `exposure` uniform). -/
structure DemoState where
  drag : Option DragTarget
  previousMouseX : ℝ
  previousMouseY : ℝ
  viewZenithAngleRadians : ℝ
  viewAzimuthAngleRadians : ℝ
  viewDistanceMeters : ℝ
  sunZenithAngleRadians : ℝ
  sunAzimuthAngleRadians : ℝ
  cameraPosition : Vec3
  cameraLookTarget : Vec3
  sunDirectionUniform : Vec3
  exposureUniform : ℝ

/-- A pointer event as the handlers read it: `offsetX`, `offsetY`,
`ctrlKey`. -/
structure MouseEvent where
  offsetX : ℝ
  offsetY : ℝ
  ctrlKey : Bool

/-- The camera position recomputation repeated verbatim in
`onMouseMove` (camera branch), `onMouseWheel` and `setView`:
`distance = viewDistanceMeters / kLengthUnitInMeters` and spherical to
Cartesian conversion of `(distance, viewZenith, viewAzimuth)`. -/
noncomputable def cameraPositionOf
    (viewDistanceMeters viewZenithAngleRadians viewAzimuthAngleRadians : ℝ) :
    Vec3 :=
  let distance := viewDistanceMeters / kLengthUnitInMeters
  ⟨distance * Real.sin viewZenithAngleRadians * Real.cos viewAzimuthAngleRadians,
   distance * Real.sin viewZenithAngleRadians * Real.sin viewAzimuthAngleRadians,
   distance * Real.cos viewZenithAngleRadians⟩

/-- The sun-direction recomputation repeated in `setupScene`,
`onMouseMove` (sun branch) and `setView`. -/
noncomputable def sunDirectionOf
    (sunZenithAngleRadians sunAzimuthAngleRadians : ℝ) : Vec3 :=
  ⟨Real.sin sunZenithAngleRadians * Real.cos sunAzimuthAngleRadians,
   Real.sin sunZenithAngleRadians * Real.sin sunAzimuthAngleRadians,
   Real.cos sunZenithAngleRadians⟩

/-- The interaction state right after the constructor, `setupCamera` and
`setupControls` have run (before `setView` applies the default view). -/
noncomputable def demoState0 : DemoState :=
  { drag := none
    previousMouseX := 0
    previousMouseY := 0
    viewZenithAngleRadians := 1.47
    viewAzimuthAngleRadians := 0
    viewDistanceMeters := 9000
    sunZenithAngleRadians := 1.3
    sunAzimuthAngleRadians := 2.9
    cameraPosition := ⟨0, -9, 0.9⟩
    cameraLookTarget := Vec3.zero
    sunDirectionUniform := sunDirectionOf 1.3 2.9
    exposureUniform := 10 }

/-! ### Event handlers (main.js lines 205-276, 295-358) -/

/-- `Demo.onMouseDown`: record the pointer position and enter a sun drag
when the ctrl key is held, a camera drag otherwise. -/
noncomputable def onMouseDown (s : DemoState) (event : MouseEvent) : DemoState :=
  { s with
    previousMouseX := event.offsetX
    previousMouseY := event.offsetY
    drag := if event.ctrlKey then some DragTarget.sun else some DragTarget.camera }

/-- `Demo.onMouseMove`: return immediately when `this.drag` is falsy
(idle); otherwise update the active target's angles from the pointer
delta scaled by `kScale = 500`, clamp the zenith angle
(`Math.max(0, Math.min(bound, v))`), recompute the derived vector and
record the pointer position. -/
noncomputable def onMouseMove (s : DemoState) (event : MouseEvent) : DemoState :=
  match s.drag with
  | none => s
  | some DragTarget.sun =>
      let kScale : ℝ := 500
      let mouseX := event.offsetX
      let mouseY := event.offsetY
      let sunZenithAngleRadians :=
        max 0 (min Real.pi
          (s.sunZenithAngleRadians - (s.previousMouseY - mouseY) / kScale))
      let sunAzimuthAngleRadians :=
        s.sunAzimuthAngleRadians + (s.previousMouseX - mouseX) / kScale
      { s with
        sunZenithAngleRadians := sunZenithAngleRadians
        sunAzimuthAngleRadians := sunAzimuthAngleRadians
        sunDirectionUniform :=
          sunDirectionOf sunZenithAngleRadians sunAzimuthAngleRadians
        previousMouseX := mouseX
        previousMouseY := mouseY }
  | some DragTarget.camera =>
      let kScale : ℝ := 500
      let mouseX := event.offsetX
      let mouseY := event.offsetY
      let viewZenithAngleRadians :=
        max 0 (min (Real.pi / 2)
          (s.viewZenithAngleRadians + (s.previousMouseY - mouseY) / kScale))
      let viewAzimuthAngleRadians :=
        s.viewAzimuthAngleRadians + (s.previousMouseX - mouseX) / kScale
      { s with
        viewZenithAngleRadians := viewZenithAngleRadians
        viewAzimuthAngleRadians := viewAzimuthAngleRadians
        cameraPosition :=
          cameraPositionOf s.viewDistanceMeters viewZenithAngleRadians
            viewAzimuthAngleRadians
        cameraLookTarget := Vec3.zero
        previousMouseX := mouseX
        previousMouseY := mouseY }

/-- `Demo.onMouseUp`: `this.drag = undefined`. -/
noncomputable def onMouseUp (s : DemoState) (_event : MouseEvent) : DemoState :=
  { s with drag := none }

/-- `Demo.onMouseWheel`: multiply the view distance by `1.05` when
`event.deltaY > 0` and by `1 / 1.05` otherwise, recompute the camera
position, look at the origin, and call `event.preventDefault()` (the
returned Bool records that the default was suppressed). -/
noncomputable def onMouseWheel (s : DemoState) (deltaY : ℝ) : DemoState × Bool :=
  let viewDistanceMeters :=
    s.viewDistanceMeters * (if 0 < deltaY then 1.05 else 1 / 1.05)
  ({ s with
     viewDistanceMeters := viewDistanceMeters
     cameraPosition :=
       cameraPositionOf viewDistanceMeters s.viewZenithAngleRadians
         s.viewAzimuthAngleRadians
     cameraLookTarget := Vec3.zero }, true)

/-- Fold a sequence of wheel events through `onMouseWheel`. -/
noncomputable def applyWheelEvents (s : DemoState) (deltas : List ℝ) : DemoState :=
  deltas.foldl (fun t d => (onMouseWheel t d).1) s

/-- `Demo.setView`: store the five spherical parameters, recompute the
camera position (looking at the origin), the `sun_direction` uniform and
the `exposure` uniform. -/
noncomputable def setView (s : DemoState)
    (viewDistanceMeters viewZenithAngleRadians viewAzimuthAngleRadians
     sunZenithAngleRadians sunAzimuthAngleRadians exposure : ℝ) : DemoState :=
  { s with
    viewDistanceMeters := viewDistanceMeters
    viewZenithAngleRadians := viewZenithAngleRadians
    viewAzimuthAngleRadians := viewAzimuthAngleRadians
    sunZenithAngleRadians := sunZenithAngleRadians
    sunAzimuthAngleRadians := sunAzimuthAngleRadians
    cameraPosition :=
      cameraPositionOf viewDistanceMeters viewZenithAngleRadians
        viewAzimuthAngleRadians
    cameraLookTarget := Vec3.zero
    sunDirectionUniform :=
      sunDirectionOf sunZenithAngleRadians sunAzimuthAngleRadians
    exposureUniform := exposure }

/-- `Demo.onKeyPress`: `h` only toggles the DOM help overlay (no `Demo`
state change), `+` and `-` scale the exposure uniform, digits `1`-`9`
jump to the preset views, and every other key is ignored. -/
noncomputable def onKeyPress (s : DemoState) (key : Char) : DemoState :=
  match key with
  | 'h' => s
  | '+' => { s with exposureUniform := s.exposureUniform * 1.1 }
  | '-' => { s with exposureUniform := s.exposureUniform / 1.1 }
  | '1' => setView s 9000 1.47 0 1.3 3 10
  | '2' => setView s 9000 1.47 0 1.564 (-3) 10
  | '3' => setView s 7000 1.57 0 1.54 (-2.96) 10
  | '4' => setView s 7000 1.57 0 1.328 (-3.044) 10
  | '5' => setView s 9000 1.39 0 1.2 0.7 10
  | '6' => setView s 9000 1.5 0 1.628 1.05 200
  | '7' => setView s 7000 1.43 0 1.57 1.34 40
  | '8' => setView s 2.7e6 0.81 0 1.57 2 10
  | '9' => setView s 1.2e7 0.0 0 0.93 (-2) 10
  | _ => s

/-! ### Helper lemmas -/

theorem leWords32_length : ∀ l : List Nat, (leWords32 l).length = l.length / 4
  | [] => rfl
  | [_] => by simp [leWords32]
  | [_, _] => by simp [leWords32]
  | [_, _, _] => by simp [leWords32]
  | _ :: _ :: _ :: _ :: rest => by
      have ih := leWords32_length rest
      simp only [leWords32, List.length_cons, ih]
      omega

/-! ### Claim C1 -/

/-- C1, counterexample: `new Float32Array(buffer)` performs no
dimension check — a 4-byte buffer, whose length matches none of the
three assets' expected `width * height * (depth or 1) * 4 channels * 4`
byte counts, is decoded successfully rather than rejected. -/
theorem float32Array_no_size_check :
    exceptIsOk (float32ArrayOfBuffer [0, 0, 0, 0]) = true ∧
    [0, 0, 0, 0].length ≠
      TRANSMITTANCE_TEXTURE_WIDTH * TRANSMITTANCE_TEXTURE_HEIGHT * 4 * 4 ∧
    [0, 0, 0, 0].length ≠
      SCATTERING_TEXTURE_WIDTH * SCATTERING_TEXTURE_HEIGHT *
        SCATTERING_TEXTURE_DEPTH * 4 * 4 ∧
    [0, 0, 0, 0].length ≠
      IRRADIANCE_TEXTURE_WIDTH * IRRADIANCE_TEXTURE_HEIGHT * 4 * 4 := by
  refine ⟨rfl, ?_, ?_, ?_⟩ <;> decide

/-- C1, amended: decoding a buffer of byte length `n` yields exactly
`n / 4` float elements whenever `n` is a multiple of 4 — in particular a
buffer of `width * height * (depth or 1) * 4 * 4` bytes yields
`width * height * (depth or 1) * 4` elements — and only a byte length
that is not a multiple of 4 is rejected (with the `Float32Array`
constructor's `RangeError`); no asset-specific size check exists. -/
theorem float32Array_decode_length (buffer : List Nat) :
    (buffer.length % 4 = 0 →
      float32ArrayOfBuffer buffer = Except.ok (leWords32 buffer) ∧
      (leWords32 buffer).length = buffer.length / 4) ∧
    (buffer.length % 4 ≠ 0 →
      float32ArrayOfBuffer buffer = Except.error LoadError.rangeError) := by
  constructor
  · intro h
    exact ⟨by simp [float32ArrayOfBuffer, h], leWords32_length buffer⟩
  · intro h
    simp [float32ArrayOfBuffer, h]

/-- Witness for C1's amended theorem at two concrete buffers. -/
theorem float32Array_decode_length_witness :
    (float32ArrayOfBuffer [0, 0, 0, 0] = Except.ok (leWords32 [0, 0, 0, 0]) ∧
      (leWords32 [0, 0, 0, 0]).length = 1) ∧
    float32ArrayOfBuffer [0] = Except.error LoadError.rangeError :=
  ⟨(float32Array_decode_length [0, 0, 0, 0]).1 (by decide),
   (float32Array_decode_length [0]).2 (by decide)⟩

/-! ### Claim C8 -/

/-- C8, counterexample: even when the runtime supports linear filtering
of the higher-precision format (`hasOESTextureFloatLinear = true`), the
scattering and irradiance textures are created with the lower-precision
format `RGBA16F`, not the higher-precision `RGBA32F`; the capability
check does not govern their formats. -/
theorem bindTextures_not_capability_governed_for_all :
    (bindTextures true [] [] []).scatteringTexture.internalFormat = "RGBA16F" ∧
    (bindTextures true [] [] []).irradianceTexture.internalFormat = "RGBA16F" ∧
    "RGBA16F" ≠ "RGBA32F" := by
  refine ⟨rfl, rfl, ?_⟩
  decide

/-- C8, amended: all three textures use linear mag/min filtering and a
floating-point pixel type; only the transmittance texture's internal
format follows the one capability check (`RGBA32F` when linear float
filtering is supported, `RGBA16F` otherwise), while the scattering and
irradiance textures always use `RGBA16F` regardless of the check. -/
theorem bindTextures_formats (b : Bool) (t s i : List Nat) :
    (bindTextures b t s i).transmittanceTexture.internalFormat =
      (if b then "RGBA32F" else "RGBA16F") ∧
    (bindTextures b t s i).scatteringTexture.internalFormat = "RGBA16F" ∧
    (bindTextures b t s i).irradianceTexture.internalFormat = "RGBA16F" ∧
    (bindTextures b t s i).transmittanceTexture.magFilter = TextureFilter.LinearFilter ∧
    (bindTextures b t s i).transmittanceTexture.minFilter = TextureFilter.LinearFilter ∧
    (bindTextures b t s i).scatteringTexture.magFilter = TextureFilter.LinearFilter ∧
    (bindTextures b t s i).scatteringTexture.minFilter = TextureFilter.LinearFilter ∧
    (bindTextures b t s i).irradianceTexture.magFilter = TextureFilter.LinearFilter ∧
    (bindTextures b t s i).irradianceTexture.minFilter = TextureFilter.LinearFilter ∧
    (bindTextures b t s i).transmittanceTexture.typ = TextureType.FloatType ∧
    (bindTextures b t s i).scatteringTexture.typ = TextureType.FloatType ∧
    (bindTextures b t s i).irradianceTexture.typ = TextureType.FloatType :=
  ⟨rfl, rfl, rfl, rfl, rfl, rfl, rfl, rfl, rfl, rfl, rfl, rfl⟩

/-! ### Claim C4 -/

/-- C4: if any one of the three asset fetches fails, `init` does not
construct the scene, and each asset file is fetched exactly once (the
failed load is never retried). -/
theorem init_no_partial_scene (fetchFile : String → Except LoadError (List Nat))
    (file : String) (hmem : file ∈ textureFiles)
    (hfail : exceptIsOk (fetchFile file) = false) :
    (init fetchFile).sceneConstructed = false ∧
    ∀ f ∈ textureFiles, ((init fetchFile).requests.count f = 1) := by
  have hreq : ∀ f ∈ textureFiles, ((init fetchFile).requests.count f = 1) := by
    have : (init fetchFile).requests = textureFiles := by
      unfold init
      cases loadTextures fetchFile <;> rfl
    rw [this]
    decide
  refine ⟨?_, hreq⟩
  have herr : ∃ e, fetchFile file = Except.error e := by
    cases h : fetchFile file with
    | ok v => rw [h] at hfail; exact absurd hfail (by simp [exceptIsOk])
    | error e => exact ⟨e, rfl⟩
  obtain ⟨e, he⟩ := herr
  have hload : ∃ d, loadTextures fetchFile = Except.error d := by
    simp only [textureFiles, List.mem_cons, List.mem_singleton,
      List.not_mem_nil, or_false] at hmem
    rcases hmem with h1 | h2 | h3
    · subst h1
      refine ⟨e, ?_⟩
      simp [loadTextures, he, Bind.bind, Except.bind]
    · subst h2
      cases ht : fetchFile "/transmittance.dat" with
      | error e1 =>
          refine ⟨e1, ?_⟩
          simp [loadTextures, ht, Bind.bind, Except.bind]
      | ok tb =>
          cases hd : float32ArrayOfBuffer tb with
          | error e1 =>
              refine ⟨e1, ?_⟩
              simp [loadTextures, ht, hd, Bind.bind, Except.bind]
          | ok td =>
              refine ⟨e, ?_⟩
              simp [loadTextures, ht, hd, he, Bind.bind, Except.bind]
    · subst h3
      cases ht : fetchFile "/transmittance.dat" with
      | error e1 =>
          refine ⟨e1, ?_⟩
          simp [loadTextures, ht, Bind.bind, Except.bind]
      | ok tb =>
          cases hd : float32ArrayOfBuffer tb with
          | error e1 =>
              refine ⟨e1, ?_⟩
              simp [loadTextures, ht, hd, Bind.bind, Except.bind]
          | ok td =>
              cases hs : fetchFile "/scattering.dat" with
              | error e2 =>
                  refine ⟨e2, ?_⟩
                  simp [loadTextures, ht, hd, hs, Bind.bind, Except.bind]
              | ok sb =>
                  cases hds : float32ArrayOfBuffer sb with
                  | error e2 =>
                      refine ⟨e2, ?_⟩
                      simp [loadTextures, ht, hd, hs, hds, Bind.bind, Except.bind]
                  | ok sd =>
                      refine ⟨e, ?_⟩
                      simp [loadTextures, ht, hd, hs, hds, he, Bind.bind, Except.bind]
  obtain ⟨d, hld⟩ := hload
  simp [init, hld]

/-- Witness for C4 in the environment where the scattering fetch fails. -/
theorem init_no_partial_scene_witness :
    (init failingFetch).sceneConstructed = false ∧
    ∀ f ∈ textureFiles, ((init failingFetch).requests.count f = 1) :=
  init_no_partial_scene failingFetch "/scattering.dat" (by decide) (by decide)

/-! ### Claim C2 -/

/-- C2: on every drag-move update, whatever the previous angles, pointer
positions and delta magnitude, the updated view zenith angle lies in
`[0, π/2]` (camera drag) and the updated sun zenith angle lies in
`[0, π]` (sun drag). -/
theorem onMouseMove_zenith_clamped (s : DemoState) (e : MouseEvent) :
    (0 ≤ (onMouseMove { s with drag := some DragTarget.camera } e).viewZenithAngleRadians ∧
      (onMouseMove { s with drag := some DragTarget.camera } e).viewZenithAngleRadians ≤
        Real.pi / 2) ∧
    (0 ≤ (onMouseMove { s with drag := some DragTarget.sun } e).sunZenithAngleRadians ∧
      (onMouseMove { s with drag := some DragTarget.sun } e).sunZenithAngleRadians ≤
        Real.pi) := by
  refine ⟨⟨le_max_left _ _, ?_⟩, ⟨le_max_left _ _, ?_⟩⟩
  · exact max_le (by positivity) (min_le_left _ _)
  · exact max_le Real.pi_nonneg (min_le_left _ _)

/-! ### Claim C5 -/

theorem cameraPositionOf_normSq (d z a : ℝ) :
    (cameraPositionOf d z a).normSq = (d / kLengthUnitInMeters) ^ 2 := by
  have hz := Real.sin_sq_add_cos_sq z
  have ha := Real.sin_sq_add_cos_sq a
  simp only [cameraPositionOf, Vec3.normSq]
  linear_combination
    ((d / kLengthUnitInMeters) ^ 2 * Real.sin z ^ 2) * ha +
      (d / kLengthUnitInMeters) ^ 2 * hz

/-- C5: at each of the three camera-position recomputations (`setView`,
the camera branch of `onMouseMove`, and `onMouseWheel`), the derived
Cartesian camera position has squared norm equal to the square of the
distance it was derived from (`viewDistanceMeters / kLengthUnitInMeters`),
and the camera's look target is always the world origin. -/
theorem camera_norm_and_look_target (s : DemoState) (e : MouseEvent)
    (deltaY d z a sz sa ex : ℝ) :
    ((setView s d z a sz sa ex).cameraPosition.normSq =
       ((setView s d z a sz sa ex).viewDistanceMeters / kLengthUnitInMeters) ^ 2 ∧
     (setView s d z a sz sa ex).cameraLookTarget = Vec3.zero) ∧
    ((onMouseMove { s with drag := some DragTarget.camera } e).cameraPosition.normSq =
       ((onMouseMove { s with drag := some DragTarget.camera } e).viewDistanceMeters /
          kLengthUnitInMeters) ^ 2 ∧
     (onMouseMove { s with drag := some DragTarget.camera } e).cameraLookTarget =
       Vec3.zero) ∧
    ((onMouseWheel s deltaY).1.cameraPosition.normSq =
       ((onMouseWheel s deltaY).1.viewDistanceMeters / kLengthUnitInMeters) ^ 2 ∧
     (onMouseWheel s deltaY).1.cameraLookTarget = Vec3.zero) :=
  ⟨⟨cameraPositionOf_normSq d z a, rfl⟩,
   ⟨cameraPositionOf_normSq s.viewDistanceMeters _ _, rfl⟩,
   ⟨cameraPositionOf_normSq (s.viewDistanceMeters *
      (if 0 < deltaY then 1.05 else 1 / 1.05)) _ _, rfl⟩⟩

/-! ### Claim C6 -/

/-- C6: pressing the preset key `1` sets view distance 9000, view
zenith 1.47, view azimuth 0, sun zenith 1.3, sun azimuth 3 and
exposure 10, whatever the prior state. -/
theorem onKeyPress_preset_one (s : DemoState) :
    (onKeyPress s '1').viewDistanceMeters = 9000 ∧
    (onKeyPress s '1').viewZenithAngleRadians = 1.47 ∧
    (onKeyPress s '1').viewAzimuthAngleRadians = 0 ∧
    (onKeyPress s '1').sunZenithAngleRadians = 1.3 ∧
    (onKeyPress s '1').sunAzimuthAngleRadians = 3 ∧
    (onKeyPress s '1').exposureUniform = 10 :=
  ⟨rfl, rfl, rfl, rfl, rfl, rfl⟩

/-! ### Claim C7 -/

/-- C7: the drag machine has exactly the three states `undefined`
(idle), `'camera'` and `'sun'`; pointer-down enters `'sun'` exactly when
the modifier is held and `'camera'` otherwise, pointer-move never
changes the drag target, and pointer-up always returns the machine to
idle. -/
theorem drag_state_machine (s : DemoState) (e : MouseEvent) :
    (∀ st : Option DragTarget,
      st = none ∨ st = some DragTarget.camera ∨ st = some DragTarget.sun) ∧
    (onMouseDown s e).drag =
      (if e.ctrlKey then some DragTarget.sun else some DragTarget.camera) ∧
    (onMouseMove s e).drag = s.drag ∧
    (onMouseUp s e).drag = none := by
  refine ⟨?_, rfl, ?_, rfl⟩
  · intro st
    rcases st with _ | t
    · exact Or.inl rfl
    · rcases t with _ | _
      · exact Or.inr (Or.inr rfl)
      · exact Or.inr (Or.inl rfl)
  · obtain ⟨dr, px, py, vz, va, vd, sz, sa, cp, cl, su, ex⟩ := s
    rcases dr with _ | t
    · rfl
    · rcases t with _ | _ <;> rfl

/-! ### Claim C9 -/

/-- C9: a pointer-move received in the idle state (drag target
undefined) leaves the whole interaction state unchanged — view distance,
all four angles, camera position and look target, sun-direction uniform,
exposure, and the recorded previous pointer coordinates. -/
theorem onMouseMove_idle_noop (s : DemoState) (e : MouseEvent) :
    onMouseMove { s with drag := none } e = { s with drag := none } :=
  rfl

/-! ### Claim C3 -/

theorem applyWheelEvents_zoom_out :
    ∀ (ds : List ℝ) (s : DemoState), (∀ d ∈ ds, 0 < d) →
      (applyWheelEvents s ds).viewDistanceMeters =
        s.viewDistanceMeters * 1.05 ^ ds.length
  | [], s, _ => by simp [applyWheelEvents]
  | d :: ds, s, h => by
      have hd : 0 < d := h d (List.mem_cons_self d ds)
      have ih := applyWheelEvents_zoom_out ds ((onMouseWheel s d).1)
        (fun x hx => h x (List.mem_cons_of_mem _ hx))
      rw [show applyWheelEvents s (d :: ds) =
            applyWheelEvents ((onMouseWheel s d).1) ds from rfl, ih]
      have hw : (onMouseWheel s d).1.viewDistanceMeters =
          s.viewDistanceMeters * 1.05 := by
        simp [onMouseWheel, hd]
      rw [hw, List.length_cons]
      ring

theorem applyWheelEvents_zoom_in :
    ∀ (ds : List ℝ) (s : DemoState), (∀ d ∈ ds, d < 0) →
      (applyWheelEvents s ds).viewDistanceMeters =
        s.viewDistanceMeters * (1 / 1.05) ^ ds.length
  | [], s, _ => by simp [applyWheelEvents]
  | d :: ds, s, h => by
      have hd : ¬ (0 : ℝ) < d := not_lt.mpr (h d (List.mem_cons_self d ds)).le
      have ih := applyWheelEvents_zoom_in ds ((onMouseWheel s d).1)
        (fun x hx => h x (List.mem_cons_of_mem _ hx))
      rw [show applyWheelEvents s (d :: ds) =
            applyWheelEvents ((onMouseWheel s d).1) ds from rfl, ih]
      have hw : (onMouseWheel s d).1.viewDistanceMeters =
          s.viewDistanceMeters * (1 / 1.05) := by
        simp [onMouseWheel, hd]
      rw [hw, List.length_cons]
      ring

/-- C3: after any sequence of N wheel events with strictly positive
vertical delta (zoom out) the view distance is the initial distance
times `1.05 ^ N`; after N events with strictly negative delta (zoom in)
it is the initial distance times `(1 / 1.05) ^ N`; and every wheel event
suppresses the host's default scroll behavior. -/
theorem wheel_zoom_geometric (s : DemoState) (ds : List ℝ) :
    ((∀ d ∈ ds, 0 < d) →
      (applyWheelEvents s ds).viewDistanceMeters =
        s.viewDistanceMeters * 1.05 ^ ds.length) ∧
    ((∀ d ∈ ds, d < 0) →
      (applyWheelEvents s ds).viewDistanceMeters =
        s.viewDistanceMeters * (1 / 1.05) ^ ds.length) ∧
    (∀ d : ℝ, (onMouseWheel s d).2 = true) :=
  ⟨fun h => applyWheelEvents_zoom_out ds s h,
   fun h => applyWheelEvents_zoom_in ds s h,
   fun _ => rfl⟩

/-- Witness for C3: two zoom-out steps and one zoom-in step from the
initial state. -/
theorem wheel_zoom_geometric_witness :
    (applyWheelEvents demoState0 [1, 1]).viewDistanceMeters = 9000 * 1.05 ^ 2 ∧
    (applyWheelEvents demoState0 [-1]).viewDistanceMeters =
      9000 * (1 / 1.05) ^ 1 ∧
    (onMouseWheel demoState0 1).2 = true := by
  refine ⟨?_, ?_, (wheel_zoom_geometric demoState0 []).2.2 1⟩
  · exact (wheel_zoom_geometric demoState0 [1, 1]).1 (by
      intro d hd
      simp only [List.mem_cons, List.not_mem_nil, or_false] at hd
      rcases hd with h | h <;> simp [h])
  · exact (wheel_zoom_geometric demoState0 [-1]).2.1 (by
      intro d hd
      simp only [List.mem_cons, List.not_mem_nil, or_false] at hd
      rw [hd]
      exact neg_lt_zero.mpr zero_lt_one)

/-! ### Claim C10 -/

/-- C10: a wheel event with vertical delta exactly 0 takes the `1/1.05`
(zoom in) branch, producing the same state as any strictly negative
delta; only a strictly positive delta multiplies the distance by 1.05. -/
theorem wheel_zero_delta_zooms_in (s : DemoState) (d : ℝ) :
    (onMouseWheel s 0).1.viewDistanceMeters =
      s.viewDistanceMeters * (1 / 1.05) ∧
    (d < 0 → (onMouseWheel s d).1 = (onMouseWheel s 0).1) ∧
    (0 < d → (onMouseWheel s d).1.viewDistanceMeters =
      s.viewDistanceMeters * 1.05) := by
  refine ⟨?_, ?_, ?_⟩
  · simp [onMouseWheel]
  · intro hd
    have h1 : ¬ (0 : ℝ) < d := not_lt.mpr hd.le
    simp [onMouseWheel, h1]
  · intro hd
    simp [onMouseWheel, hd]

/-- Witness for C10 at deltas 0, -1 and 1 from the initial state. -/
theorem wheel_zero_delta_zooms_in_witness :
    (onMouseWheel demoState0 0).1.viewDistanceMeters = 9000 * (1 / 1.05) ∧
    (onMouseWheel demoState0 (-1)).1 = (onMouseWheel demoState0 0).1 ∧
    (onMouseWheel demoState0 1).1.viewDistanceMeters = 9000 * 1.05 :=
  ⟨(wheel_zero_delta_zooms_in demoState0 0).1,
   (wheel_zero_delta_zooms_in demoState0 (-1)).2.1
     (neg_lt_zero.mpr zero_lt_one),
   (wheel_zero_delta_zooms_in demoState0 1).2.2 zero_lt_one⟩
